import Mathlib

/-!
Shallow embedding of the Future/Promise/Executor subsystem of the Orbit profiler:
`src/OrbitBase/include/OrbitBase/Future.h` and `src/OrbitGl/MainThreadExecutor.h`.
The mutex-guarded shared state is modelled as a pure record; each method becomes a
function from the state it observes or mutates to its result together with the updated
state. The components whose headers are absent from the sources (SharedState.h,
Promise.h, FutureHelpers.h, PromiseHelpers.h, the concrete WaitFor implementation) are
modelled from the specification and marked as such in their doc comments.
-/

namespace OrbitBase

/-- SharedState<T> as used by Future.h: a write-once `result : std::optional<T>` and the
list of registered continuations. The mutex is elided, every access in the embedding is
one critical section. `C` is the type of the stored continuations. -/
structure SharedState (T : Type) (C : Type) where
  result : Option T
  continuations : List C

/-- SharedState<void> as used by the `Future<void>` specialization: a `finished` flag
replaces the optional result. -/
structure SharedStateVoid (C : Type) where
  finished : Bool
  continuations : List C

/-- A Future<T> handle: `shared_state_` is the shared_ptr member of FutureBase; `none`
models an empty pointer (use_count 0), which only arises for moved-from handles. -/
structure FutureHandle (T : Type) (C : Type) where
  shared_state_ : Option (SharedState T C)

/-- A Future<void> handle. -/
structure FutureVoidHandle (C : Type) where
  shared_state_ : Option (SharedStateVoid C)

/-- The shared_ptr use count of the handle: 0 when empty, positive when it owns a live
SharedState. -/
def use_count {T C : Type} (f : FutureHandle T C) : Nat :=
  match f.shared_state_ with
  | none => 0
  | some _ => 1

/-- The shared_ptr use count of a Future<void> handle. -/
def use_countVoid {C : Type} (f : FutureVoidHandle C) : Nat :=
  match f.shared_state_ with
  | none => 0
  | some _ => 1

/-- FutureBase::IsValid (Future.h line 47): `shared_state_.use_count() > 0`. -/
def IsValid {T C : Type} (f : FutureHandle T C) : Bool :=
  use_count f > 0

/-- FutureBase::IsValid for the void specialization. -/
def IsValidVoid {C : Type} (f : FutureVoidHandle C) : Bool :=
  use_countVoid f > 0

/-- Future<T>::IsFinished (Future.h lines 78-83): false when the use count is zero,
otherwise whether `result` holds a value. -/
def IsFinished {T C : Type} (f : FutureHandle T C) : Bool :=
  match f.shared_state_ with
  | none => false
  | some s => s.result.isSome

/-- Future<void>::IsFinished (Future.h lines 155-160): false when the use count is zero,
otherwise the `finished` flag. -/
def IsFinishedVoid {C : Type} (f : FutureVoidHandle C) : Bool :=
  match f.shared_state_ with
  | none => false
  | some s => s.finished

/-- Result enum of RegisterContinuation (Future.h lines 61-65). -/
inductive FutureRegisterContinuationResult where
  | kSuccessfullyRegistered
  | kFutureAlreadyCompleted
  | kFutureNotValid
deriving DecidableEq, Repr

/-- Future<T>::RegisterContinuation (Future.h lines 98-113): returns kFutureNotValid when
the handle is invalid; under the mutex, returns kFutureAlreadyCompleted when `result`
already holds a value; otherwise appends the continuation (emplace_back) and returns
kSuccessfullyRegistered. The updated handle is returned alongside the result. -/
def RegisterContinuation {T C : Type} (f : FutureHandle T C) (continuation : C) :
    FutureRegisterContinuationResult × FutureHandle T C :=
  match f.shared_state_ with
  | none => (.kFutureNotValid, f)
  | some s =>
    if s.result.isSome then
      (.kFutureAlreadyCompleted, f)
    else
      (.kSuccessfullyRegistered,
       ⟨some { s with continuations := s.continuations ++ [continuation] }⟩)

/-- Future<void>::RegisterContinuation (Future.h lines 164-179): same logic with the
`finished` flag in place of `result.has_value()`. -/
def RegisterContinuationVoid {C : Type} (f : FutureVoidHandle C) (continuation : C) :
    FutureRegisterContinuationResult × FutureVoidHandle C :=
  match f.shared_state_ with
  | none => (.kFutureNotValid, f)
  | some s =>
    if s.finished then
      (.kFutureAlreadyCompleted, f)
    else
      (.kSuccessfullyRegistered,
       ⟨some { s with continuations := s.continuations ++ [continuation] }⟩)

/-- Outcome of one observation of Future<T>::Wait: the CHECK on validity fails fatally,
or the caller blocks because `result` is still empty, or the call returns. -/
inductive WaitOutcome where
  | fatalCheckFailed
  | blocked
  | returned
deriving DecidableEq, Repr

/-- Future<T>::Wait (Future.h lines 115-121): CHECK(IsValid()) fails fatally on an empty
handle; otherwise the caller is blocked until `result` holds a value. Modelled as one
observation of the current state: `blocked` means the state is not yet fulfilled. -/
def Wait {T C : Type} (f : FutureHandle T C) : WaitOutcome :=
  match f.shared_state_ with
  | none => .fatalCheckFailed
  | some s => if s.result.isSome then .returned else .blocked

/-- Future<void>::Wait (Future.h lines 181-186). -/
def WaitVoid {C : Type} (f : FutureVoidHandle C) : WaitOutcome :=
  match f.shared_state_ with
  | none => .fatalCheckFailed
  | some s => if s.finished then .returned else .blocked

/-- Outcome of one observation of Future<T>::Get. -/
inductive GetOutcome (T : Type) where
  | fatalCheckFailed
  | blocked
  | value (v : T)
deriving DecidableEq, Repr

/-- Future<T>::Get (Future.h lines 85-90): calls Wait, then returns `result.value()`
under the mutex. -/
def Get {T C : Type} (f : FutureHandle T C) : GetOutcome T :=
  match Wait f with
  | .fatalCheckFailed => .fatalCheckFailed
  | .blocked => .blocked
  | .returned =>
    match f.shared_state_ with
    | none => .fatalCheckFailed
    | some s =>
      match s.result with
      | none => .fatalCheckFailed
      | some v => .value v

/-- The completed-future constructor of Future<T> (Future.h lines 70-76): allocates a
fresh SharedState and emplaces the forwarded arguments into `result`. `v` is the value
the emplace constructs. -/
def completedFuture {T : Type} (C : Type) (v : T) : FutureHandle T C :=
  ⟨some { result := some v, continuations := [] }⟩

/-- The default constructor of orbit_base::Future<T> resolves to the variadic
completed-future constructor with an empty argument pack (Future.h lines 70-76 and the
comment on line 229): `result.emplace()` default-constructs the payload. For T = int the
stored value is 0. -/
def defaultConstructedFuture (C : Type) : FutureHandle Nat C :=
  completedFuture C 0

/-- The default constructor of Future<void> (Future.h lines 149-153): allocates a fresh
SharedState<void> and sets `finished` to true, producing a completed future. -/
def completedVoidFuture (C : Type) : FutureVoidHandle C :=
  ⟨some { finished := true, continuations := [] }⟩

/-- Moving from a Future handle: the shared_ptr move constructor leaves the source empty
(use_count 0). Returns the destination handle and the moved-from source. -/
def moveFrom {T C : Type} (f : FutureHandle T C) :
    FutureHandle T C × FutureHandle T C :=
  (⟨f.shared_state_⟩, ⟨none⟩)

/-- Modelled from the spec: SharedState<T>::Fulfill (OrbitBase/SharedState.h is missing
from the sources). Under the guard it writes `result`, failing fatally if already
written, then drains the continuation list to be invoked outside the critical section.
`none` models the fatal double-fulfillment; otherwise the updated state and the drained
continuations are returned. -/
def Fulfill {T C : Type} (s : SharedState T C) (value : T) :
    Option (SharedState T C × List C) :=
  match s.result with
  | some _ => none
  | none => some ({ result := some value, continuations := [] }, s.continuations)

/-- Modelled from the spec: Promise<T>::Set (OrbitBase/Promise.h is missing from the
sources) delegates to SharedState::Fulfill and fails fatally on double fulfillment. -/
def PromiseSet {T C : Type} (s : SharedState T C) (value : T) :
    Option (SharedState T C × List C) :=
  Fulfill s value

/-- The view a Future<R> handle gives of a freshly created promise whose shared state
currently stores `p`: Promise<R>::GetFuture binds the handle to the same SharedState. -/
def futureOfPromise {R : Type} (C : Type) (p : Option R) : FutureHandle R C :=
  ⟨some { result := p, continuations := [] }⟩

/-- Result enum of MainThreadExecutor::WaitFor (MainThreadExecutor.h line 108). -/
inductive WaitResult where
  | kCompleted
  | kTimedOut
  | kAborted
deriving DecidableEq, Repr

/-- Modelled from the spec: MainThreadExecutor::WaitFor(future, timeout) is pure virtual
in the sources; per the spec it blocks the calling thread until the future completes, the
timeout elapses, or AbortWaitingJobs is invoked concurrently. Modelled as the observation
at timeout expiry with no concurrent fulfillment and no abort: kCompleted when the future
is finished, otherwise kTimedOut. -/
def WaitForWithTimeout {R C : Type} (f : FutureHandle R C) : WaitResult :=
  if IsFinished f then .kCompleted else .kTimedOut

/-- The data captured by the continuation closure built inside
MainThreadExecutor::ScheduleAfter (MainThreadExecutor.h lines 88-102) that is not part of
the executor or promise state: the wrapped continuation itself. The weak executor
reference and the promise are passed to `invokeScheduleAfterClosure` at invocation
time. -/
structure SAClosure (T R : Type) where
  copyable_function : T → R

/-- The body of the continuation closure of ScheduleAfter (MainThreadExecutor.h lines
88-102): lock the weak executor pointer; when it is empty (executor destroyed), return
leaving everything untouched; otherwise enqueue onto the executor the function wrapper,
which on execution by the run loop will call the continuation on the captured argument
and set the result in the promise. The executor queue entry is represented as the thunk
whose run-loop execution fulfills the promise of this ScheduleAfter call. -/
def invokeScheduleAfterClosure {T R : Type} (executorAlive : Bool)
    (queue : List (Unit → R)) (closure : SAClosure T R) (argument : T) :
    List (Unit → R) :=
  if executorAlive then queue ++ [fun _ => closure.copyable_function argument]
  else queue

/-- The outcome of one MainThreadExecutor::ScheduleAfter call: whether the
CHECK(future.IsValid()) failed, the source future handle afterwards (a continuation
closure may have been registered on it), the result slot of the freshly created promise,
and the executor queue afterwards (the closure may have been invoked inline when the
source future was already completed). -/
structure ScheduleAfterResult (T R : Type) where
  fatalCheck : Bool
  source : FutureHandle T (SAClosure T R)
  promiseResult : Option R
  queue : List (Unit → R)

/-- Modelled from the spec: orbit_base::RegisterContinuationOrCallDirectly
(OrbitBase/FutureHelpers.h is missing from the sources) registers the continuation on
the future via RegisterContinuation; when the future is already completed it invokes the
continuation inline immediately with the completed value. Returns the source handle and
the executor queue afterwards. -/
def RegisterContinuationOrCallDirectly {T R : Type} (executorAlive : Bool)
    (queue : List (Unit → R)) (future : FutureHandle T (SAClosure T R))
    (closure : SAClosure T R) :
    FutureHandle T (SAClosure T R) × List (Unit → R) :=
  match RegisterContinuation future closure with
  | (.kSuccessfullyRegistered, f1) => (f1, queue)
  | (.kFutureAlreadyCompleted, f1) =>
    match future.shared_state_ with
    | some s =>
      match s.result with
      | some v => (f1, invokeScheduleAfterClosure executorAlive queue closure v)
      | none => (f1, queue)
    | none => (f1, queue)
  | (.kFutureNotValid, f1) => (f1, queue)

/-- MainThreadExecutor::ScheduleAfter (MainThreadExecutor.h lines 74-106):
CHECK(future.IsValid()), create a fresh Promise/Future pair, build the continuation
closure capturing the functor, a weak executor reference and the promise, register it
via RegisterContinuationOrCallDirectly, and return the resulting future (whose shared
state is the fresh promise, still unfulfilled). -/
def ScheduleAfter {T R : Type} (executorAlive : Bool) (queue : List (Unit → R))
    (future : FutureHandle T (SAClosure T R)) (functor : T → R) :
    ScheduleAfterResult T R :=
  if IsValid future = false then
    { fatalCheck := true, source := future, promiseResult := none, queue := queue }
  else
    let registered := RegisterContinuationOrCallDirectly executorAlive queue future
      ⟨functor⟩
    { fatalCheck := false, source := registered.1, promiseResult := none,
      queue := registered.2 }

/-- Future<T>::Then (Future.h lines 128-131): syntactic sugar that calls
executor->ScheduleAfter(self, invocable) and returns its result. -/
def Then {T R : Type} (executorAlive : Bool) (queue : List (Unit → R))
    (future : FutureHandle T (SAClosure T R)) (invocable : T → R) :
    ScheduleAfterResult T R :=
  ScheduleAfter executorAlive queue future invocable

/-- Fulfilling the source future drains its registered ScheduleAfter closures and
invokes each with the fulfilled value (SharedState::Fulfill is modelled from the spec;
the closure bodies are from MainThreadExecutor.h lines 88-102). Returns the fulfilled
source state and the executor queue after all the drained closures ran, or `none` on the
fatal double fulfillment. -/
def fulfillSourceAndInvoke {T R : Type} (executorAlive : Bool)
    (queue : List (Unit → R)) (s : SharedState T (SAClosure T R)) (v : T) :
    Option (SharedState T (SAClosure T R) × List (Unit → R)) :=
  match Fulfill s v with
  | none => none
  | some (s1, drained) =>
    some (s1, drained.foldl (fun q c => invokeScheduleAfterClosure executorAlive q c v) queue)

/-- State of one MainThreadExecutor::Schedule call (MainThreadExecutor.h lines 53-68):
the result slot of the fresh promise and the executor queue. -/
structure ScheduleResult (R : Type) where
  promiseResult : Option R
  queue : List (Unit → R)

/-- MainThreadExecutor::Schedule (MainThreadExecutor.h lines 53-68): creates a fresh
Promise/Future pair, wraps the functor into a function wrapper that will capture its
return value into the promise when executed, enqueues the wrapper, and returns the
future immediately, without running the functor. The queue entry is represented by the
functor itself; `runLoopStep` gives the wrapper its semantics. -/
def Schedule {R : Type} (queue : List (Unit → R)) (functor : Unit → R) :
    ScheduleResult R :=
  { promiseResult := none, queue := queue ++ [functor] }

/-- One event-loop cycle picking up the next scheduled task: the function wrapper calls
the functor and sets its return value in the promise
(orbit_base::CallTaskAndSetResultInPromise, modelled from the spec because
OrbitBase/PromiseHelpers.h is missing from the sources). -/
def runLoopStep {R : Type} (r : ScheduleResult R) : ScheduleResult R :=
  match r.queue with
  | [] => r
  | task :: rest => { promiseResult := some (task ()), queue := rest }

/-- State of one Schedule call with a void-returning functor: the fresh no-payload
promise is a `finished` flag. -/
structure ScheduleVoidResult where
  finished : Bool
  queue : List (Unit → Unit)

/-- MainThreadExecutor::Schedule with a void-returning functor: ReturnType is deduced as
void, so the pair is Promise<void>/Future<void> and the wrapper marks the promise
finished after calling the functor. -/
def ScheduleVoid (queue : List (Unit → Unit)) (functor : Unit → Unit) :
    ScheduleVoidResult :=
  { finished := false, queue := queue ++ [functor] }

/-- One event-loop cycle for the void variant: runs the task, then marks the no-payload
promise finished (CallTaskAndSetResultInPromise for void, modelled from the spec). -/
def runLoopStepVoid (r : ScheduleVoidResult) : ScheduleVoidResult :=
  match r.queue with
  | [] => r
  | task :: rest =>
    let _ := task ()
    { finished := true, queue := rest }

/-- The Future<void> view of the no-payload promise of a void Schedule call. -/
def voidFutureOfPromise (C : Type) (finished : Bool) : FutureVoidHandle C :=
  ⟨some { finished := finished, continuations := [] }⟩

/-- Modelled from the spec: ErrorMessageOr<T> (OrbitBase/Result.h is missing from the
sources) is the success-or-error outcome payload: either an error message or a value. -/
inductive ErrorMessageOr (T : Type) where
  | errorMessage (message : String)
  | success (value : T)

/-- The data captured by the continuation wrapper of ScheduleAfterIfSuccess that is not
part of the executor or promise state. -/
structure SAISClosure (T R : Type) where
  continuation : T → R

/-- Modelled from the spec: the continuation wrapper built by
MainThreadExecutor::ScheduleAfterIfSuccess (the method is missing from the sources).
As in ScheduleAfter it first resolves the weak executor reference, becoming a no-op if
the executor was destroyed. On a failing delivered outcome the continuation is skipped
and the new promise is fulfilled directly with the propagated failure; on success the
continuation invocation is enqueued onto the executor, to fulfill the promise with the
success of its return value when executed. Returns the executor queue and the promise
result slot afterwards. -/
def invokeSAISClosure {T R : Type} (executorAlive : Bool)
    (queue : List (Unit → ErrorMessageOr R)) (promiseResult : Option (ErrorMessageOr R))
    (closure : SAISClosure T R) (outcome : ErrorMessageOr T) :
    List (Unit → ErrorMessageOr R) × Option (ErrorMessageOr R) :=
  if executorAlive then
    match outcome with
    | .errorMessage msg => (queue, some (.errorMessage msg))
    | .success v => (queue ++ [fun _ => .success (closure.continuation v)], promiseResult)
  else (queue, promiseResult)

/-- The outcome of one ScheduleAfterIfSuccess call. -/
structure SAISResult (T R : Type) where
  fatalCheck : Bool
  source : FutureHandle (ErrorMessageOr T) (SAISClosure T R)
  promiseResult : Option (ErrorMessageOr R)
  queue : List (Unit → ErrorMessageOr R)

/-- Modelled from the spec: MainThreadExecutor::ScheduleAfterIfSuccess (missing from the
sources) mirrors ScheduleAfter for result-carrying futures: it creates a fresh
Promise/Future pair for ErrorMessageOr<R>, registers the wrapper on the source future,
invoking it inline when the source is already completed, and returns the resulting
future. -/
def ScheduleAfterIfSuccess {T R : Type} (executorAlive : Bool)
    (queue : List (Unit → ErrorMessageOr R))
    (future : FutureHandle (ErrorMessageOr T) (SAISClosure T R)) (functor : T → R) :
    SAISResult T R :=
  if IsValid future = false then
    { fatalCheck := true, source := future, promiseResult := none, queue := queue }
  else
    match RegisterContinuation future ⟨functor⟩ with
    | (.kFutureAlreadyCompleted, f1) =>
      match future.shared_state_ with
      | some s =>
        match s.result with
        | some outcome =>
          let invoked := invokeSAISClosure executorAlive queue none ⟨functor⟩ outcome
          { fatalCheck := false, source := f1, promiseResult := invoked.2,
            queue := invoked.1 }
        | none =>
          { fatalCheck := false, source := f1, promiseResult := none, queue := queue }
      | none =>
        { fatalCheck := false, source := f1, promiseResult := none, queue := queue }
    | (_result, f1) =>
      { fatalCheck := false, source := f1, promiseResult := none, queue := queue }

/-- Future<ErrorMessageOr<T>>::ThenIfSuccess (Future.h lines 270-273): syntactic sugar
that calls executor->ScheduleAfterIfSuccess(self, invocable) and returns its result. -/
def ThenIfSuccess {T R : Type} (executorAlive : Bool)
    (queue : List (Unit → ErrorMessageOr R))
    (future : FutureHandle (ErrorMessageOr T) (SAISClosure T R)) (invocable : T → R) :
    SAISResult T R :=
  ScheduleAfterIfSuccess executorAlive queue future invocable

/-- C1: For every Future handle and continuation, RegisterContinuation returns
kFutureNotValid when the handle is invalid; when valid and already fulfilled it returns
kFutureAlreadyCompleted without invoking the continuation and without modifying the
continuation list; otherwise it appends the continuation exactly once and returns
kSuccessfullyRegistered — for both the payload and the void variants. -/
theorem registerContinuation_result_spec {T C : Type} (f : FutureHandle T C)
    (g : FutureVoidHandle C) (c : C) :
    (IsValid f = false → RegisterContinuation f c = (.kFutureNotValid, f)) ∧
    (IsValid f = true → IsFinished f = true →
      RegisterContinuation f c = (.kFutureAlreadyCompleted, f)) ∧
    (IsValid f = true → IsFinished f = false →
      ∀ s, f.shared_state_ = some s →
        RegisterContinuation f c =
          (.kSuccessfullyRegistered,
           ⟨some { s with continuations := s.continuations ++ [c] }⟩)) ∧
    (IsValidVoid g = false → RegisterContinuationVoid g c = (.kFutureNotValid, g)) ∧
    (IsValidVoid g = true → IsFinishedVoid g = true →
      RegisterContinuationVoid g c = (.kFutureAlreadyCompleted, g)) ∧
    (IsValidVoid g = true → IsFinishedVoid g = false →
      ∀ s, g.shared_state_ = some s →
        RegisterContinuationVoid g c =
          (.kSuccessfullyRegistered,
           ⟨some { s with continuations := s.continuations ++ [c] }⟩)) := by
  obtain ⟨os⟩ := f
  obtain ⟨og⟩ := g
  cases os <;> cases og <;>
    simp [IsValid, IsValidVoid, use_count, use_countVoid, IsFinished, IsFinishedVoid,
      RegisterContinuation, RegisterContinuationVoid, Option.isSome_iff_ne_none]

/-- Witness for C1: a completed Future<Nat> reports kFutureAlreadyCompleted and is left
unchanged. -/
theorem registerContinuation_result_spec_witness :
    RegisterContinuation (completedFuture Nat 5) 7 =
      (.kFutureAlreadyCompleted, completedFuture Nat 5) :=
  (registerContinuation_result_spec (completedFuture Nat 5) (completedVoidFuture Nat)
    7).2.1 rfl rfl

/-- C2: a Future<T> constructed directly with a value is finished immediately after
construction and Get returns that value without blocking; the default-constructed
Future<void> is born already completed. -/
theorem completedFuture_spec {T : Type} (v : T) :
    IsValid (completedFuture Unit v) = true ∧
    IsFinished (completedFuture Unit v) = true ∧
    Get (completedFuture Unit v) = .value v ∧
    IsValidVoid (completedVoidFuture Unit) = true ∧
    IsFinishedVoid (completedVoidFuture Unit) = true := by
  refine ⟨rfl, rfl, ?_, rfl, rfl⟩
  simp [Get, Wait, completedFuture]

/-- C10: the continuation is consumed (lands in the shared state) exactly when
RegisterContinuation returns kSuccessfullyRegistered; on kFutureAlreadyCompleted or
kFutureNotValid the handle and its continuation list are left unchanged — for both the
payload and the void variants. -/
theorem registerContinuation_frame {T C : Type} (f : FutureHandle T C)
    (g : FutureVoidHandle C) (c : C) :
    ((RegisterContinuation f c).1 ≠ .kSuccessfullyRegistered →
      (RegisterContinuation f c).2 = f) ∧
    ((RegisterContinuation f c).1 = .kSuccessfullyRegistered →
      ∃ s, f.shared_state_ = some s ∧
        (RegisterContinuation f c).2 =
          ⟨some { s with continuations := s.continuations ++ [c] }⟩) ∧
    ((RegisterContinuationVoid g c).1 ≠ .kSuccessfullyRegistered →
      (RegisterContinuationVoid g c).2 = g) ∧
    ((RegisterContinuationVoid g c).1 = .kSuccessfullyRegistered →
      ∃ s, g.shared_state_ = some s ∧
        (RegisterContinuationVoid g c).2 =
          ⟨some { s with continuations := s.continuations ++ [c] }⟩) := by
  obtain ⟨os⟩ := f
  obtain ⟨og⟩ := g
  refine ⟨?_, ?_, ?_, ?_⟩ <;>
    cases os <;> cases og <;>
      simp [RegisterContinuation, RegisterContinuationVoid] <;>
        split <;> simp_all

/-- Witness for C10: registering on an invalid (moved-from) handle leaves it unchanged,
and registering on an unfulfilled future appends the continuation. -/
theorem registerContinuation_frame_witness :
    (RegisterContinuation (⟨none⟩ : FutureHandle Nat Nat) 3).2 = ⟨none⟩ ∧
    ∃ s, (⟨some { result := none, continuations := [] }⟩ :
        FutureHandle Nat Nat).shared_state_ = some s ∧
      (RegisterContinuation
        (⟨some { result := none, continuations := [] }⟩ : FutureHandle Nat Nat) 3).2 =
        ⟨some { s with continuations := s.continuations ++ [3] }⟩ :=
  ⟨(registerContinuation_frame (⟨none⟩ : FutureHandle Nat Nat) ⟨none⟩ 3).1 (by decide),
   (registerContinuation_frame
     (⟨some { result := none, continuations := [] }⟩ : FutureHandle Nat Nat)
     ⟨none⟩ 3).2.1 (by decide)⟩

/-- C4: a second fulfillment of a shared state whose result is already written is the
fatal error (no ok outcome exists), it never overwrites the first value, and the first
value remains the one every Future observes through Get. -/
theorem promiseSet_double_fulfillment_fatal {T C : Type} (s s1 : SharedState T C)
    (v w : T) (drained : List C) (h : PromiseSet s v = some (s1, drained)) :
    PromiseSet s1 w = none ∧
    s1.result = some v ∧
    Get (⟨some s1⟩ : FutureHandle T C) = .value v := by
  cases hr : s.result with
  | some u => simp [PromiseSet, Fulfill, hr] at h
  | none =>
    simp [PromiseSet, Fulfill, hr] at h
    obtain ⟨h1, -⟩ := h
    subst h1
    exact ⟨rfl, rfl, by simp [Get, Wait]⟩

/-- Witness for C4: fulfilling a fresh shared state with 1 succeeds; fulfilling it again
with 2 is fatal and 1 stays the observed value. -/
theorem promiseSet_double_fulfillment_fatal_witness :
    PromiseSet ({ result := some 1, continuations := [] } : SharedState Nat Unit) 2 =
      none ∧
    ({ result := some 1, continuations := [] } : SharedState Nat Unit).result = some 1 ∧
    Get (⟨some { result := some 1, continuations := [] }⟩ : FutureHandle Nat Unit) =
      .value 1 :=
  promiseSet_double_fulfillment_fatal { result := none, continuations := [] }
    { result := some 1, continuations := [] } 1 2 [] rfl

/-- C5 counterexample: a default-constructed orbit_base::Future<T> resolves to the
variadic completed-future constructor, so it is valid (use_count 1) and Wait and Get do
not fail fatally on it, contrary to the claim that default-constructed handles are
invalid with use_count 0. -/
theorem defaultConstructedFuture_not_invalid :
    IsValid (defaultConstructedFuture Unit) = true ∧
    use_count (defaultConstructedFuture Unit) = 1 ∧
    Wait (defaultConstructedFuture Unit) = .returned ∧
    Get (defaultConstructedFuture Unit) = .value 0 := by
  refine ⟨rfl, rfl, ?_, ?_⟩ <;>
    simp [Wait, Get, defaultConstructedFuture, completedFuture]

/-- C5 amended: Wait and Get on an invalid handle (moved-from, use_count 0) fail fatally
at the CHECK; moved-from handles are the invalid ones (a default-constructed future is
valid and completed); on a valid handle Wait returns exactly when the shared state is
fulfilled and Get returns the stored value. -/
theorem wait_get_spec {T C : Type} (f : FutureHandle T C) :
    (IsValid f = false → Wait f = .fatalCheckFailed ∧ Get f = .fatalCheckFailed) ∧
    (∀ g : FutureHandle T C, IsValid (moveFrom g).2 = false) ∧
    (IsValid f = true →
      ((Wait f = .returned) ↔ IsFinished f = true) ∧
      ∀ s v, f.shared_state_ = some s → s.result = some v → Get f = .value v) := by
  obtain ⟨os⟩ := f
  refine ⟨?_, fun g => rfl, ?_⟩ <;> cases os <;>
    simp [IsValid, use_count, IsFinished, Wait, Get, Option.isSome_iff_ne_none]
  intro s v hs hv
  subst hs
  simp [hv]

/-- Witness for C5: Wait and Get fail fatally on a moved-from handle, and Get returns
the stored value 5 on a valid completed future. -/
theorem wait_get_spec_witness :
    (Wait (⟨none⟩ : FutureHandle Nat Unit) = .fatalCheckFailed ∧
     Get (⟨none⟩ : FutureHandle Nat Unit) = .fatalCheckFailed) ∧
    Get (completedFuture Unit 5) = .value 5 :=
  ⟨(wait_get_spec (⟨none⟩ : FutureHandle Nat Unit)).1 rfl,
   ((wait_get_spec (completedFuture Unit 5)).2.2 rfl).2
     { result := some 5, continuations := [] } 5 rfl rfl⟩

/-- C8 counterexample: the claim says IsValid returns false for default-constructed
handles, but the default constructor of orbit_base::Future<T> creates a completed,
valid future (Future.h lines 70-76 and 144, 229). -/
theorem defaultConstructedFuture_isValid :
    IsValid (defaultConstructedFuture Bool) = true ∧
    IsFinished (defaultConstructedFuture Bool) = true := ⟨rfl, rfl⟩

/-- C8 amended: IsValid is true iff the handle is bound to a live SharedState (use_count
positive), and false for moved-from handles; default construction creates a valid
completed future, not an invalid handle; IsFinished is false on an invalid handle and
otherwise equals whether the shared state has been fulfilled, without blocking. -/
theorem isValid_isFinished_spec {T C : Type} (f : FutureHandle T C) :
    (IsValid f = true ↔ f.shared_state_.isSome = true) ∧
    (IsValid f = true ↔ 0 < use_count f) ∧
    (∀ g : FutureHandle T C, IsValid (moveFrom g).2 = false) ∧
    (IsValid f = false → IsFinished f = false) ∧
    (∀ s, f.shared_state_ = some s → (IsFinished f = true ↔ s.result.isSome = true)) := by
  obtain ⟨os⟩ := f
  refine ⟨?_, ?_, fun g => rfl, ?_, ?_⟩ <;> cases os <;>
    simp [IsValid, use_count, IsFinished]

/-- Witness for C8: a moved-from handle is invalid and IsFinished is false on it; a
handle bound to a fulfilled shared state is finished. -/
theorem isValid_isFinished_spec_witness :
    IsFinished (⟨none⟩ : FutureHandle Nat Unit) = false ∧
    (IsFinished (completedFuture Unit 3) = true ↔
      (Option.some 3).isSome = true) :=
  ⟨(isValid_isFinished_spec (⟨none⟩ : FutureHandle Nat Unit)).2.2.2.1 rfl,
   (isValid_isFinished_spec (completedFuture Unit 3)).2.2.2.2
     { result := some 3, continuations := [] } rfl⟩

/-- C9: Future<T>::Then forwards its arguments unchanged to the executor ScheduleAfter
and returns the very same result. -/
theorem then_eq_scheduleAfter {T R : Type} (executorAlive : Bool)
    (queue : List (Unit → R)) (future : FutureHandle T (SAClosure T R))
    (invocable : T → R) :
    Then executorAlive queue future invocable =
      ScheduleAfter executorAlive queue future invocable := rfl

/-- Helper: when the executor is destroyed, invoking any number of ScheduleAfter
closures leaves the executor queue unchanged. -/
theorem invokeScheduleAfterClosure_dead_foldl {T R : Type} (l : List (SAClosure T R))
    (q : List (Unit → R)) (v : T) :
    l.foldl (fun acc c => invokeScheduleAfterClosure false acc c v) q = q := by
  induction l generalizing q with
  | nil => rfl
  | cons c l ih => simp [invokeScheduleAfterClosure, ih]

/-- C3: a ScheduleAfter call on a not yet completed source future registers the wrapper
and returns an unfulfilled promise; when the source future is later fulfilled and its
drained wrapper runs with the executor already destroyed, the weak reference fails to
resolve, so the wrapper returns without enqueueing the continuation (the queue is
unchanged) and without fulfilling the new promise, whose future therefore reports
IsFinished false and makes WaitFor with a timeout return kTimedOut. -/
theorem scheduleAfter_dead_executor {T R : Type} (queue : List (Unit → R))
    (s : SharedState T (SAClosure T R)) (functor : T → R) (v : T)
    (h : s.result = none) :
    (ScheduleAfter false queue ⟨some s⟩ functor).fatalCheck = false ∧
    (ScheduleAfter false queue ⟨some s⟩ functor).promiseResult = none ∧
    (ScheduleAfter false queue ⟨some s⟩ functor).queue = queue ∧
    (ScheduleAfter false queue ⟨some s⟩ functor).source =
      ⟨some { s with continuations := s.continuations ++ [⟨functor⟩] }⟩ ∧
    fulfillSourceAndInvoke false queue
        { s with continuations := s.continuations ++ [⟨functor⟩] } v =
      some ({ result := some v, continuations := [] }, queue) ∧
    IsFinished (futureOfPromise Unit (none : Option R)) = false ∧
    WaitForWithTimeout (futureOfPromise Unit (none : Option R)) = .kTimedOut := by
  have hreg : RegisterContinuation (⟨some s⟩ : FutureHandle T (SAClosure T R))
      (⟨functor⟩ : SAClosure T R) =
      (.kSuccessfullyRegistered,
       ⟨some { s with continuations := s.continuations ++ [⟨functor⟩] }⟩) := by
    simp [RegisterContinuation, h]
  refine ⟨?_, ?_, ?_, ?_, ?_, rfl, rfl⟩ <;>
    simp [ScheduleAfter, RegisterContinuationOrCallDirectly, hreg, IsValid, use_count,
      fulfillSourceAndInvoke, Fulfill, h, invokeScheduleAfterClosure_dead_foldl,
      invokeScheduleAfterClosure]

/-- Witness for C3: concrete instance with an empty queue, an unfulfilled source state
and a Nat continuation. -/
theorem scheduleAfter_dead_executor_witness :
    (ScheduleAfter false [] (⟨some { result := none, continuations := [] }⟩ :
        FutureHandle Nat (SAClosure Nat Nat)) (fun n => n + 1)).promiseResult = none ∧
    (ScheduleAfter false [] (⟨some { result := none, continuations := [] }⟩ :
        FutureHandle Nat (SAClosure Nat Nat)) (fun n => n + 1)).queue = [] ∧
    WaitForWithTimeout (futureOfPromise Unit (none : Option Nat)) = .kTimedOut :=
  ⟨(scheduleAfter_dead_executor [] { result := none, continuations := [] }
      (fun n => n + 1) 0 rfl).2.1,
   (scheduleAfter_dead_executor [] { result := none, continuations := [] }
      (fun n => n + 1) 0 rfl).2.2.1,
   (scheduleAfter_dead_executor [] { result := none, continuations := [] }
      (fun n => n + 1) 0 rfl).2.2.2.2.2.2⟩

/-- C6: when the delivered outcome of a result-carrying future is a failure,
ThenIfSuccess (which delegates to ScheduleAfterIfSuccess) never invokes the
continuation — the executor queue is unchanged and the outcome does not depend on the
continuation at all — and the returned future is fulfilled with that same failure; the
deferred wrapper behaves identically when invoked with a failing outcome at fulfillment
time. -/
theorem thenIfSuccess_failure_short_circuits {T R : Type}
    (queue : List (Unit → ErrorMessageOr R))
    (s : SharedState (ErrorMessageOr T) (SAISClosure T R)) (msg : String)
    (functor g : T → R) (h : s.result = some (.errorMessage msg)) :
    (ThenIfSuccess true queue ⟨some s⟩ functor).promiseResult =
      some (.errorMessage msg) ∧
    (ThenIfSuccess true queue ⟨some s⟩ functor).queue = queue ∧
    ThenIfSuccess true queue ⟨some s⟩ functor =
      ScheduleAfterIfSuccess true queue ⟨some s⟩ functor ∧
    ThenIfSuccess true queue ⟨some s⟩ functor = ThenIfSuccess true queue ⟨some s⟩ g ∧
    (∀ p, invokeSAISClosure true queue p (⟨functor⟩ : SAISClosure T R)
      (.errorMessage msg) = (queue, some (.errorMessage msg))) := by
  refine ⟨?_, ?_, rfl, ?_, fun p => rfl⟩ <;>
    simp [ThenIfSuccess, ScheduleAfterIfSuccess, RegisterContinuation, IsValid,
      use_count, h, invokeSAISClosure]

/-- Witness for C6: concrete failing outcome with two different continuations. -/
theorem thenIfSuccess_failure_short_circuits_witness :
    (ThenIfSuccess true []
      (⟨some { result := some (.errorMessage "disconnected"), continuations := [] }⟩ :
        FutureHandle (ErrorMessageOr Nat) (SAISClosure Nat Nat))
      (fun n => n)).promiseResult = some (.errorMessage "disconnected") ∧
    ThenIfSuccess true []
      (⟨some { result := some (.errorMessage "disconnected"), continuations := [] }⟩ :
        FutureHandle (ErrorMessageOr Nat) (SAISClosure Nat Nat)) (fun n => n) =
    ThenIfSuccess true []
      (⟨some { result := some (.errorMessage "disconnected"), continuations := [] }⟩ :
        FutureHandle (ErrorMessageOr Nat) (SAISClosure Nat Nat)) (fun n => n + 1) :=
  ⟨(thenIfSuccess_failure_short_circuits []
      { result := some (.errorMessage "disconnected"), continuations := [] }
      "disconnected" (fun n => n) (fun n => n + 1) rfl).1,
   (thenIfSuccess_failure_short_circuits []
      { result := some (.errorMessage "disconnected"), continuations := [] }
      "disconnected" (fun n => n) (fun n => n + 1) rfl).2.2.2.1⟩

/-- C7: Schedule creates a fresh Promise/Future pair (valid, unfulfilled), enqueues the
wrapped callable without running it, and returns the future immediately; when the run
loop executes the wrapper, the return value of the callable is captured into the
promise and becomes the value of the returned future; a void-returning callable yields
the no-payload pair, marked finished by the run loop. -/
theorem schedule_spec {R : Type} (queue : List (Unit → R)) (functor : Unit → R)
    (voidFunctor : Unit → Unit) :
    (Schedule queue functor).promiseResult = none ∧
    (Schedule queue functor).queue = queue ++ [functor] ∧
    IsValid (futureOfPromise Unit (Schedule queue functor).promiseResult) = true ∧
    IsFinished (futureOfPromise Unit (Schedule queue functor).promiseResult) = false ∧
    (runLoopStep (Schedule [] functor)).promiseResult = some (functor ()) ∧
    Get (futureOfPromise Unit (runLoopStep (Schedule [] functor)).promiseResult) =
      .value (functor ()) ∧
    (ScheduleVoid [] voidFunctor).finished = false ∧
    IsFinishedVoid (voidFutureOfPromise Unit (ScheduleVoid [] voidFunctor).finished) =
      false ∧
    (runLoopStepVoid (ScheduleVoid [] voidFunctor)).finished = true ∧
    IsFinishedVoid
      (voidFutureOfPromise Unit (runLoopStepVoid (ScheduleVoid [] voidFunctor)).finished) =
      true := by
  refine ⟨rfl, rfl, rfl, rfl, rfl, ?_, rfl, rfl, rfl, rfl⟩
  simp [Get, Wait, futureOfPromise, runLoopStep, Schedule]

end OrbitBase
